import Mathlib

/-!
Shallow embedding of the MMOTop voting automation (src/main.py and
src/settings.py).

Every browser-driver call in the source is a call site; an `Env` assigns to
each site the exception the driver raises there (or `none` when the call
succeeds), together with the text of the countdown element.  Each routine of
the source is translated to a function producing the list of observable
events (method invocations and log records, in program order) and a result:
normal return or a propagating exception carrying its message.
-/

/-- The three exception kinds handled by the program (imported in
src/main.py from the driver library). -/
inductive PyExc where
  | noSuchElement
  | timeout
  | elementNotVisible
deriving DecidableEq

/-- One constructor per browser-driver call site in src/main.py, in source
order. -/
inductive Site where
  | openPage
  | clickSignInLink
  | sendUserEmail
  | sendUserPassword
  | clickSignInSubmit
  | waitSlider
  | dragSlider
  | reconnectSlider
  | waitCountdown
  | findCloudflareIframe
  | switchToFrame
  | findMarkerFirst
  | clickIframe
  | findMarkerSecond
  | scrollScript
  | clickRadio
  | findCharInput
  | clearCharInput
  | sendAccountName
  | reconnectVote
  | clickSubmit
deriving DecidableEq

/-- Observable events: page-object method invocations (with their
arguments), the marker checks and clicks of the iframe challenge, the
submit click, and the log records the source writes. -/
inductive Event where
  | openVotePageCall (url : String)
  | loginCall (user pass : String)
  | logTimeCall
  | solveQaptchaCall
  | voteCall (rate name : String)
  | solveCloudflareCall
  | markerCheck
  | iframeClick
  | submitClick
  | logInfo (msg : String)
  | logError (msg : String)
deriving DecidableEq

/-- Result of a routine: normal return, or a propagating exception with its
message. -/
inductive Res where
  | ok
  | exc (e : PyExc) (msg : String)
deriving DecidableEq

/-- The driver environment of one run: what each call site raises (none =
success), and the countdown element's text. -/
structure Env where
  fail : Site → Option (PyExc × String)
  countdownText : String

/-- A computation: trace of events plus result. -/
abbrev M := List Event × Res

/-- Record one event and return normally. -/
def emit (ev : Event) : M := ([ev], Res.ok)

/-- One driver call: no events of its own, raises what the environment says.
-/
def prim (env : Env) (s : Site) : M :=
  match env.fail s with
  | none => ([], Res.ok)
  | some em => ([], Res.exc em.1 em.2)

/-- Sequential composition: Python statement sequencing, where an exception
in the first statement skips the second. -/
def mseq : M → M → M
  | (tr, Res.ok), b => (tr ++ b.1, b.2)
  | (tr, Res.exc e m), _ => (tr, Res.exc e m)

/-- `try ... except NoSuchElementException: handler` of the source: only a
NoSuchElementException transfers control to the handler. -/
def mtry : M → M → M
  | (tr, Res.exc PyExc.noSuchElement _), h => (tr ++ h.1, h.2)
  | a, _ => a

/-- src/main.py `MMOTopPage.open_vote_page`. -/
def MMOTopPage.open_vote_page (url : String) (env : Env) : M :=
  mseq (emit (Event.openVotePageCall url))
    (mseq (emit (Event.logInfo ("Opening vote page: " ++ url)))
      (prim env Site.openPage))

/-- src/main.py `MMOTopPage.login`: sign-in link click, two send_keys, form
submit; any of the four driver calls may raise. -/
def MMOTopPage.login (user_name user_password : String) (env : Env) : M :=
  mseq (emit (Event.loginCall user_name user_password))
    (mseq (emit (Event.logInfo ("Logging in...")))
      (mseq (prim env Site.clickSignInLink)
        (mseq (prim env Site.sendUserEmail)
          (mseq (prim env Site.sendUserPassword)
            (prim env Site.clickSignInSubmit)))))

/-- src/main.py `MMOTopPage.solve_qaptcha`: wait for the slider, drag it,
log, reconnect. -/
def MMOTopPage.solve_qaptcha (env : Env) : M :=
  mseq (emit Event.solveQaptchaCall)
    (mseq (prim env Site.waitSlider)
      (mseq (prim env Site.dragSlider)
        (mseq (emit (Event.logInfo ("Qaptcha solved!")))
          (prim env Site.reconnectSlider))))

/-- src/main.py `MMOTopPage.log_time_until_next_vote`: wait for the
countdown element, then log its text. -/
def MMOTopPage.log_time_until_next_vote (env : Env) : M :=
  mseq (emit Event.logTimeCall)
    (mseq (prim env Site.waitCountdown)
      (emit (Event.logInfo ("Time remaining until next vote: " ++ env.countdownText))))

/-- src/main.py `MMOTopPage._solve_cloudflare_captcha`: find the iframe,
switch into it, check for the visible marker; only on
NoSuchElementException click the iframe once and re-check once. -/
def MMOTopPage.solve_cloudflare_captcha (env : Env) : M :=
  mseq (emit Event.solveCloudflareCall)
    (mseq (prim env Site.findCloudflareIframe)
      (mseq (prim env Site.switchToFrame)
        (mtry (mseq (emit Event.markerCheck) (prim env Site.findMarkerFirst))
          (mseq (emit Event.iframeClick)
            (mseq (prim env Site.clickIframe)
              (mseq (emit Event.markerCheck) (prim env Site.findMarkerSecond)))))))

/-- src/main.py `MMOTopPage.vote`: log, scroll, radio click, account-name
input (find, clear, send), cloudflare challenge, reconnect, then the
submit click whose NoSuchElementException alone is swallowed with an error
log. -/
def MMOTopPage.vote (server_rate account_name : String) (env : Env) : M :=
  mseq (emit (Event.voteCall server_rate account_name))
    (mseq (emit (Event.logInfo ("Voting for " ++ account_name ++ " on server rate " ++ server_rate ++ "...")))
      (mseq (prim env Site.scrollScript)
        (mseq (prim env Site.clickRadio)
          (mseq (prim env Site.findCharInput)
            (mseq (prim env Site.clearCharInput)
              (mseq (prim env Site.sendAccountName)
                (mseq (MMOTopPage.solve_cloudflare_captcha env)
                  (mseq (prim env Site.reconnectVote)
                    (mtry (mseq (emit Event.submitClick)
                        (mseq (prim env Site.clickSubmit)
                          (emit (Event.logInfo ("Vote successful!")))))
                      (emit (Event.logError ("Captcha not solved!"))))))))))))

/-- The run configuration stored by `MMOTopAutomation.__init__`
(src/main.py): each constructor argument is copied to a field unchanged. -/
structure AutomationConfig where
  vote_url : String
  user_name : String
  user_password : String
  server_rate : String
  sirus_account_name : String
  browser : String

/-- src/main.py `MMOTopAutomation.run`: open page, log in, then probe the
countdown inside try/except NoSuchElementException; on that exception solve
the qaptcha and vote with the stored configuration values. -/
def MMOTopAutomation.run (cfg : AutomationConfig) (env : Env) : M :=
  mseq (MMOTopPage.open_vote_page cfg.vote_url env)
    (mseq (MMOTopPage.login cfg.user_name cfg.user_password env)
      (mtry
        (mseq (emit (Event.logInfo ("Checking if already voted today...")))
          (MMOTopPage.log_time_until_next_vote env))
        (mseq (emit (Event.logInfo ("Not voted today yet.")))
          (mseq (MMOTopPage.solve_qaptcha env)
            (MMOTopPage.vote cfg.server_rate cfg.sirus_account_name env)))))

/-- The message prefixes logged by the three top-level handlers of
src/main.py's `__main__` block. -/
def topMsg : PyExc → String
  | PyExc.noSuchElement => "Element not found: "
  | PyExc.timeout => "A timeout occurred: "
  | PyExc.elementNotVisible => "Element not visible: "

/-- src/main.py `__main__`: build the automation from `config`, run it, and
catch each of the three exception kinds at top level, logging the kind's
message prefix plus the exception's message; nothing follows the log. -/
def mainTop (cfg : AutomationConfig) (env : Env) : M :=
  match MMOTopAutomation.run cfg env with
  | (tr, Res.ok) => (tr, Res.ok)
  | (tr, Res.exc e m) => (tr ++ [Event.logError (topMsg e ++ m)], Res.ok)

/-- src/settings.py `os.getenv` with a default. -/
def os.getenv (osEnv : String → Option String) (name default : String) : String :=
  (osEnv name).getD default

/-- src/settings.py `config`: the literal dictionary, with the three
environment-variable lookups defaulting to the empty string. -/
def config (osEnv : String → Option String) : AutomationConfig where
  vote_url := "https://wow.mmotop.ru/servers/5130/votes/new"
  user_name := os.getenv osEnv ("mmotop_login") ("")
  user_password := os.getenv osEnv ("mmotop_password") ("")
  server_rate := "x2"
  sirus_account_name := os.getenv osEnv ("sirus_account_name") ("")
  browser := "chrome"

/-- Events that are slider-challenge or vote invocations (the two
operations the orchestration layer may call after the probe). -/
def isChallengeOrVote : Event → Bool
  | Event.solveQaptchaCall => true
  | Event.voteCall _ _ => true
  | _ => false

/-- Marker-check events of the iframe challenge. -/
def isMarkerCheck : Event → Bool
  | Event.markerCheck => true
  | _ => false

/-- Iframe-click events of the iframe challenge. -/
def isIframeClick : Event → Bool
  | Event.iframeClick => true
  | _ => false

/-- Whether a result is a normal return. -/
def resOk : Res → Bool
  | Res.ok => true
  | _ => false

/-- Whether a result is one that `except NoSuchElementException` catches. -/
def resCaught : Res → Bool
  | Res.exc PyExc.noSuchElement _ => true
  | _ => false

/-- Whether an environment entry is a raised NoSuchElementException. -/
def isENFfail : Option (PyExc × String) → Bool
  | some (PyExc.noSuchElement, _) => true
  | _ => false

theorem snd_mseq (a b : M) : (mseq a b).2 = if resOk a.2 then b.2 else a.2 := by
  rcases a with ⟨tr, r⟩
  cases r <;> simp [mseq, resOk]

theorem snd_mtry (a b : M) : (mtry a b).2 = if resCaught a.2 then b.2 else a.2 := by
  rcases a with ⟨tr, r⟩
  rcases r with _ | ⟨e, m⟩
  · simp [mtry, resCaught]
  · cases e <;> simp [mtry, resCaught]

theorem filter_mseq (p : Event → Bool) (a b : M) :
    (mseq a b).1.filter p = a.1.filter p ++ if resOk a.2 then b.1.filter p else [] := by
  rcases a with ⟨tr, r⟩
  cases r <;> simp [mseq, resOk]

theorem filter_mtry (p : Event → Bool) (a b : M) :
    (mtry a b).1.filter p = a.1.filter p ++ if resCaught a.2 then b.1.filter p else [] := by
  rcases a with ⟨tr, r⟩
  rcases r with _ | ⟨e, m⟩
  · simp [mtry, resCaught]
  · cases e <;> simp [mtry, resCaught]

theorem prim_fst (env : Env) (s : Site) : (prim env s).1 = [] := by
  unfold prim
  cases env.fail s <;> rfl

theorem cf_filter_cv (env : Env) :
    (MMOTopPage.solve_cloudflare_captcha env).1.filter isChallengeOrVote = [] := by
  simp [MMOTopPage.solve_cloudflare_captcha, filter_mseq, filter_mtry, emit, prim_fst,
    isChallengeOrVote]

theorem vote_filter_cv (r n : String) (env : Env) :
    (MMOTopPage.vote r n env).1.filter isChallengeOrVote = [Event.voteCall r n] := by
  simp [MMOTopPage.vote, filter_mseq, filter_mtry, cf_filter_cv, emit, prim_fst,
    isChallengeOrVote]

theorem run_filter_cv (cfg : AutomationConfig) (env : Env) :
    (MMOTopAutomation.run cfg env).1.filter isChallengeOrVote = []
    ∨ (MMOTopAutomation.run cfg env).1.filter isChallengeOrVote = [Event.solveQaptchaCall]
    ∨ (MMOTopAutomation.run cfg env).1.filter isChallengeOrVote
        = [Event.solveQaptchaCall, Event.voteCall cfg.server_rate cfg.sirus_account_name] := by
  simp [MMOTopAutomation.run, MMOTopPage.open_vote_page, MMOTopPage.login,
    MMOTopPage.log_time_until_next_vote, MMOTopPage.solve_qaptcha,
    filter_mseq, filter_mtry, vote_filter_cv, emit, prim_fst, isChallengeOrVote]
  split_ifs <;> simp_all [resOk, resCaught]

/-- The configuration actually built at process start when no environment
variable is set. -/
def cfg0 : AutomationConfig := config (fun _ => none)

/-- Environment where every driver call succeeds. -/
def envAllOk : Env := ⟨fun _ => none, "12:34:56"⟩

/-- Environment of a first-vote run: only the countdown probe raises
NoSuchElementException. -/
def envW1 : Env :=
  ⟨fun t => if t = Site.waitCountdown then some (PyExc.noSuchElement, "nf") else none, "0"⟩

/-- Environment reaching the deepest code path (countdown absent, first
marker check absent) with a NoSuchElementException injected at one further
site `s`. -/
def envFailENF (s : Site) : Env :=
  ⟨fun t =>
    if t = s then some (PyExc.noSuchElement, "boom")
    else if t = Site.waitCountdown then some (PyExc.noSuchElement, "cd")
    else if t = Site.findMarkerFirst then some (PyExc.noSuchElement, "mk")
    else none, "0"⟩

/-- C1: when the countdown probe raises NoSuchElementException (and the
steps leading to and through the slider challenge succeed), the run's trace
restricted to slider-challenge and vote invocations is exactly one
solve_qaptcha call followed by one vote call. -/
theorem C1_probe_enf_one_qaptcha_then_one_vote
    (cfg : AutomationConfig) (env : Env) (m : String)
    (hOpen : env.fail Site.openPage = none)
    (hL1 : env.fail Site.clickSignInLink = none)
    (hL2 : env.fail Site.sendUserEmail = none)
    (hL3 : env.fail Site.sendUserPassword = none)
    (hL4 : env.fail Site.clickSignInSubmit = none)
    (hCd : env.fail Site.waitCountdown = some (PyExc.noSuchElement, m))
    (hQ1 : env.fail Site.waitSlider = none)
    (hQ2 : env.fail Site.dragSlider = none)
    (hQ3 : env.fail Site.reconnectSlider = none) :
    (MMOTopAutomation.run cfg env).1.filter isChallengeOrVote
      = [Event.solveQaptchaCall, Event.voteCall cfg.server_rate cfg.sirus_account_name] := by
  simp [MMOTopAutomation.run, MMOTopPage.open_vote_page, MMOTopPage.login,
    MMOTopPage.log_time_until_next_vote, MMOTopPage.solve_qaptcha,
    filter_mseq, filter_mtry, snd_mseq, snd_mtry, vote_filter_cv, emit, prim,
    hOpen, hL1, hL2, hL3, hL4, hCd, hQ1, hQ2, hQ3, resOk, resCaught, isChallengeOrVote]

/-- Witness for C1 at the concrete first-vote environment. -/
theorem C1_witness :
    (MMOTopAutomation.run cfg0 envW1).1.filter isChallengeOrVote
      = [Event.solveQaptchaCall, Event.voteCall cfg0.server_rate cfg0.sirus_account_name] :=
  C1_probe_enf_one_qaptcha_then_one_vote cfg0 envW1 ("nf") (by decide) (by decide)
    (by decide) (by decide) (by decide) (by decide) (by decide) (by decide) (by decide)

/-- C2: when the run reaches the countdown probe and the countdown element
is found, the run returns normally with a trace that ends at the probe's
log line: no slider-challenge and no vote invocation occurs. -/
theorem C2_probe_ok_terminal_no_challenge_no_vote
    (cfg : AutomationConfig) (env : Env)
    (hOpen : env.fail Site.openPage = none)
    (hL1 : env.fail Site.clickSignInLink = none)
    (hL2 : env.fail Site.sendUserEmail = none)
    (hL3 : env.fail Site.sendUserPassword = none)
    (hL4 : env.fail Site.clickSignInSubmit = none)
    (hCd : env.fail Site.waitCountdown = none) :
    MMOTopAutomation.run cfg env =
      ([Event.openVotePageCall cfg.vote_url,
        Event.logInfo ("Opening vote page: " ++ cfg.vote_url),
        Event.loginCall cfg.user_name cfg.user_password,
        Event.logInfo ("Logging in..."),
        Event.logInfo ("Checking if already voted today..."),
        Event.logTimeCall,
        Event.logInfo ("Time remaining until next vote: " ++ env.countdownText)], Res.ok)
    ∧ (MMOTopAutomation.run cfg env).1.filter isChallengeOrVote = [] := by
  have h : MMOTopAutomation.run cfg env =
      ([Event.openVotePageCall cfg.vote_url,
        Event.logInfo ("Opening vote page: " ++ cfg.vote_url),
        Event.loginCall cfg.user_name cfg.user_password,
        Event.logInfo ("Logging in..."),
        Event.logInfo ("Checking if already voted today..."),
        Event.logTimeCall,
        Event.logInfo ("Time remaining until next vote: " ++ env.countdownText)], Res.ok) := by
    simp [MMOTopAutomation.run, MMOTopPage.open_vote_page, MMOTopPage.login,
      MMOTopPage.log_time_until_next_vote, mseq, mtry, emit, prim,
      hOpen, hL1, hL2, hL3, hL4, hCd]
  refine ⟨h, ?_⟩
  rw [h]
  simp [isChallengeOrVote]

/-- Witness for C2 at the all-success environment. -/
theorem C2_witness :
    MMOTopAutomation.run cfg0 envAllOk =
      ([Event.openVotePageCall cfg0.vote_url,
        Event.logInfo ("Opening vote page: " ++ cfg0.vote_url),
        Event.loginCall cfg0.user_name cfg0.user_password,
        Event.logInfo ("Logging in..."),
        Event.logInfo ("Checking if already voted today..."),
        Event.logTimeCall,
        Event.logInfo ("Time remaining until next vote: " ++ envAllOk.countdownText)], Res.ok)
    ∧ (MMOTopAutomation.run cfg0 envAllOk).1.filter isChallengeOrVote = [] :=
  C2_probe_ok_terminal_no_challenge_no_vote cfg0 envAllOk rfl rfl rfl rfl rfl rfl

/-- C3 counterexample: a run in which NoSuchElementException is raised at a
point other than the already-voted probe and other than the submit-button
click — namely the iframe challenge's first visible-marker check (the two
marker checks and the iframe click in the trace show that handler ran) —
yet the run completes normally, so that occurrence is not fatal. -/
theorem C3_counterexample :
    (MMOTopAutomation.run cfg0 (envFailENF Site.findMarkerFirst)).2 = Res.ok
    ∧ (MMOTopAutomation.run cfg0 (envFailENF Site.findMarkerFirst)).1.countP isMarkerCheck = 2
    ∧ (MMOTopAutomation.run cfg0 (envFailENF Site.findMarkerFirst)).1.countP isIframeClick = 1 := by
  refine ⟨rfl, rfl, rfl⟩

/-- C3 (amended): besides the already-voted probe, the submit-button click
and the iframe challenge's first visible-marker check, a
NoSuchElementException raised at any driver call site of the workflow
propagates out of the run. -/
theorem C3_amended_enf_fatal_elsewhere
    (cfg : AutomationConfig) (s : Site)
    (h : s ∉ [Site.waitCountdown, Site.clickSubmit, Site.findMarkerFirst]) :
    (MMOTopAutomation.run cfg (envFailENF s)).2 = Res.exc PyExc.noSuchElement ("boom") := by
  cases s <;> first | rfl | exact absurd (by decide) h

/-- Witness for the amended C3 at the radio-button click site. -/
theorem C3_amended_witness :
    (MMOTopAutomation.run cfg0 (envFailENF Site.clickRadio)).2
      = Res.exc PyExc.noSuchElement ("boom") :=
  C3_amended_enf_fatal_elsewhere cfg0 Site.clickRadio (by decide)

/-- C4: any exception (of any of the three kinds, with any message) that the
login operation raises propagates out of the orchestration run uncaught,
and the top level then returns normally after logging that exception's
message as its final action. -/
theorem C4_login_exception_caught_only_at_top
    (cfg : AutomationConfig) (env : Env) (e : PyExc) (m : String)
    (hOpen : env.fail Site.openPage = none)
    (hLogin : (MMOTopPage.login cfg.user_name cfg.user_password env).2 = Res.exc e m) :
    (MMOTopAutomation.run cfg env).2 = Res.exc e m
    ∧ (mainTop cfg env).2 = Res.ok
    ∧ (mainTop cfg env).1
        = (MMOTopAutomation.run cfg env).1 ++ [Event.logError (topMsg e ++ m)] := by
  rcases hl : MMOTopPage.login cfg.user_name cfg.user_password env with ⟨ltr, lres⟩
  rw [hl] at hLogin
  have hres : lres = Res.exc e m := hLogin
  subst hres
  have hrun : MMOTopAutomation.run cfg env
      = ([Event.openVotePageCall cfg.vote_url,
          Event.logInfo ("Opening vote page: " ++ cfg.vote_url)] ++ ltr, Res.exc e m) := by
    unfold MMOTopAutomation.run
    rw [hl]
    simp [MMOTopPage.open_vote_page, mseq, emit, prim, hOpen]
  refine ⟨by rw [hrun], ?_, ?_⟩
  · simp [mainTop, hrun]
  · simp [mainTop, hrun]

/-- Environment where the sign-in link click times out. -/
def envW4 : Env :=
  ⟨fun t => if t = Site.clickSignInLink then some (PyExc.timeout, "t") else none, "0"⟩

/-- Witness for C4: a timeout raised at the sign-in click. -/
theorem C4_witness :
    (MMOTopAutomation.run cfg0 envW4).2 = Res.exc PyExc.timeout ("t")
    ∧ (mainTop cfg0 envW4).2 = Res.ok
    ∧ (mainTop cfg0 envW4).1
        = (MMOTopAutomation.run cfg0 envW4).1 ++ [Event.logError (topMsg PyExc.timeout ++ "t")] :=
  C4_login_exception_caught_only_at_top cfg0 envW4 PyExc.timeout ("t") (by decide) (by decide)

/-- C5: when the run reaches the vote's submit click and that click raises
NoSuchElementException, vote returns normally and the run completes without
error, its trace ending with the "Captcha not solved!" error log. -/
theorem C5_missing_submit_is_soft_failure
    (cfg : AutomationConfig) (env : Env) (m m2 : String)
    (hOpen : env.fail Site.openPage = none)
    (hL1 : env.fail Site.clickSignInLink = none)
    (hL2 : env.fail Site.sendUserEmail = none)
    (hL3 : env.fail Site.sendUserPassword = none)
    (hL4 : env.fail Site.clickSignInSubmit = none)
    (hCd : env.fail Site.waitCountdown = some (PyExc.noSuchElement, m))
    (hQ1 : env.fail Site.waitSlider = none)
    (hQ2 : env.fail Site.dragSlider = none)
    (hQ3 : env.fail Site.reconnectSlider = none)
    (hScroll : env.fail Site.scrollScript = none)
    (hRadio : env.fail Site.clickRadio = none)
    (hChar : env.fail Site.findCharInput = none)
    (hClear : env.fail Site.clearCharInput = none)
    (hSend : env.fail Site.sendAccountName = none)
    (hIfr : env.fail Site.findCloudflareIframe = none)
    (hSw : env.fail Site.switchToFrame = none)
    (hM1 : env.fail Site.findMarkerFirst = none)
    (hRec : env.fail Site.reconnectVote = none)
    (hSub : env.fail Site.clickSubmit = some (PyExc.noSuchElement, m2)) :
    (MMOTopPage.vote cfg.server_rate cfg.sirus_account_name env).2 = Res.ok
    ∧ MMOTopAutomation.run cfg env =
      ([Event.openVotePageCall cfg.vote_url,
        Event.logInfo ("Opening vote page: " ++ cfg.vote_url),
        Event.loginCall cfg.user_name cfg.user_password,
        Event.logInfo ("Logging in..."),
        Event.logInfo ("Checking if already voted today..."),
        Event.logTimeCall,
        Event.logInfo ("Not voted today yet."),
        Event.solveQaptchaCall,
        Event.logInfo ("Qaptcha solved!"),
        Event.voteCall cfg.server_rate cfg.sirus_account_name,
        Event.logInfo ("Voting for " ++ cfg.sirus_account_name ++ " on server rate " ++ cfg.server_rate ++ "..."),
        Event.solveCloudflareCall,
        Event.markerCheck,
        Event.submitClick,
        Event.logError ("Captcha not solved!")], Res.ok) := by
  refine ⟨?_, ?_⟩ <;>
    simp [MMOTopAutomation.run, MMOTopPage.open_vote_page, MMOTopPage.login,
      MMOTopPage.log_time_until_next_vote, MMOTopPage.solve_qaptcha, MMOTopPage.vote,
      MMOTopPage.solve_cloudflare_captcha, mseq, mtry, emit, prim,
      hOpen, hL1, hL2, hL3, hL4, hCd, hQ1, hQ2, hQ3, hScroll, hRadio, hChar, hClear,
      hSend, hIfr, hSw, hM1, hRec, hSub]

/-- Environment of a run whose only failures are the absent countdown and
the absent submit button. -/
def envW5 : Env :=
  ⟨fun t =>
    if t = Site.waitCountdown then some (PyExc.noSuchElement, "nf")
    else if t = Site.clickSubmit then some (PyExc.noSuchElement, "sb")
    else none, "0"⟩

/-- Witness for C5 at the concrete missing-submit environment. -/
theorem C5_witness :
    (MMOTopPage.vote cfg0.server_rate cfg0.sirus_account_name envW5).2 = Res.ok
    ∧ MMOTopAutomation.run cfg0 envW5 =
      ([Event.openVotePageCall cfg0.vote_url,
        Event.logInfo ("Opening vote page: " ++ cfg0.vote_url),
        Event.loginCall cfg0.user_name cfg0.user_password,
        Event.logInfo ("Logging in..."),
        Event.logInfo ("Checking if already voted today..."),
        Event.logTimeCall,
        Event.logInfo ("Not voted today yet."),
        Event.solveQaptchaCall,
        Event.logInfo ("Qaptcha solved!"),
        Event.voteCall cfg0.server_rate cfg0.sirus_account_name,
        Event.logInfo ("Voting for " ++ cfg0.sirus_account_name ++ " on server rate " ++ cfg0.server_rate ++ "..."),
        Event.solveCloudflareCall,
        Event.markerCheck,
        Event.submitClick,
        Event.logError ("Captcha not solved!")], Res.ok) :=
  C5_missing_submit_is_soft_failure cfg0 envW5 ("nf") ("sb") (by decide) (by decide)
    (by decide) (by decide) (by decide) (by decide) (by decide) (by decide) (by decide)
    (by decide) (by decide) (by decide) (by decide) (by decide) (by decide) (by decide)
    (by decide) (by decide) (by decide)

/-- C6: after the iframe is found and entered (and the iframe click itself
succeeds), the challenge routine clicks the iframe exactly once and checks
the visible marker exactly twice when the first marker check raises
NoSuchElementException, and clicks zero times and checks exactly once
otherwise — a single retry, never more. -/
theorem C6_iframe_challenge_single_retry
    (env : Env)
    (h1 : env.fail Site.findCloudflareIframe = none)
    (h2 : env.fail Site.switchToFrame = none)
    (h3 : env.fail Site.clickIframe = none) :
    (MMOTopPage.solve_cloudflare_captcha env).1.countP isIframeClick
        = (if isENFfail (env.fail Site.findMarkerFirst) then 1 else 0)
    ∧ (MMOTopPage.solve_cloudflare_captcha env).1.countP isMarkerCheck
        = (if isENFfail (env.fail Site.findMarkerFirst) then 2 else 1) := by
  rcases hm : env.fail Site.findMarkerFirst with _ | em
  · simp [MMOTopPage.solve_cloudflare_captcha, mseq, mtry, emit, prim, prim_fst,
      h1, h2, h3, hm, isENFfail, isIframeClick, isMarkerCheck, List.countP_append,
      List.countP_cons]
  · rcases em with ⟨e, ms⟩
    cases e <;> rcases hms : env.fail Site.findMarkerSecond with _ | em2 <;>
      simp [MMOTopPage.solve_cloudflare_captcha, mseq, mtry, emit, prim, prim_fst,
        h1, h2, h3, hm, hms, isENFfail, isIframeClick, isMarkerCheck, List.countP_append,
        List.countP_cons]

/-- Environment where only the first visible-marker check fails. -/
def envW6 : Env :=
  ⟨fun t => if t = Site.findMarkerFirst then some (PyExc.noSuchElement, "v") else none, "0"⟩

/-- Witness for C6 at the concrete marker-absent environment. -/
theorem C6_witness :
    (MMOTopPage.solve_cloudflare_captcha envW6).1.countP isIframeClick
        = (if isENFfail (envW6.fail Site.findMarkerFirst) then 1 else 0)
    ∧ (MMOTopPage.solve_cloudflare_captcha envW6).1.countP isMarkerCheck
        = (if isENFfail (envW6.fail Site.findMarkerFirst) then 2 else 1) :=
  C6_iframe_challenge_single_retry envW6 (by decide) (by decide) (by decide)

/-- C7: every vote invocation that occurs in any run carries exactly the
server-rate and account-name values stored in the run configuration at
construction. -/
theorem C7_vote_args_are_config_values
    (cfg : AutomationConfig) (env : Env) (r n : String)
    (h : Event.voteCall r n ∈ (MMOTopAutomation.run cfg env).1) :
    r = cfg.server_rate ∧ n = cfg.sirus_account_name := by
  have hmem : Event.voteCall r n ∈ (MMOTopAutomation.run cfg env).1.filter isChallengeOrVote :=
    List.mem_filter.mpr ⟨h, rfl⟩
  rcases run_filter_cv cfg env with h0 | h0 | h0 <;> rw [h0] at hmem <;> simp at hmem
  exact hmem

/-- Witness for C7 at the concrete first-vote environment. -/
theorem C7_witness : "x2" = cfg0.server_rate ∧ "" = cfg0.sirus_account_name :=
  C7_vote_args_are_config_values cfg0 envW1 ("x2") ("") (by decide)

/-- C8: when the three environment variables are unset, configuration
construction succeeds with empty strings for username, password and
account name. -/
theorem C8_unset_env_vars_default_to_empty
    (osEnv : String → Option String)
    (h1 : osEnv ("mmotop_login") = none)
    (h2 : osEnv ("mmotop_password") = none)
    (h3 : osEnv ("sirus_account_name") = none) :
    (config osEnv).user_name = ""
    ∧ (config osEnv).user_password = ""
    ∧ (config osEnv).sirus_account_name = "" := by
  simp [config, os.getenv, h1, h2, h3]

/-- Witness for C8 at the empty process environment. -/
theorem C8_witness :
    (config (fun _ => none)).user_name = ""
    ∧ (config (fun _ => none)).user_password = ""
    ∧ (config (fun _ => none)).sirus_account_name = "" :=
  C8_unset_env_vars_default_to_empty (fun _ => none) rfl rfl rfl

/-- C9: inside vote, a NoSuchElementException raised by the radio-button
click, the account-name input lookup, or the iframe challenge's marker
re-check is not caught: it propagates out of vote and aborts the run. -/
theorem C9_vote_soft_failure_covers_only_submit
    (cfg : AutomationConfig) (r n : String) (s : Site)
    (h : s ∈ [Site.clickRadio, Site.findCharInput, Site.findMarkerSecond]) :
    (MMOTopPage.vote r n (envFailENF s)).2 = Res.exc PyExc.noSuchElement ("boom")
    ∧ (MMOTopAutomation.run cfg (envFailENF s)).2 = Res.exc PyExc.noSuchElement ("boom") := by
  simp only [List.mem_cons, List.not_mem_nil, or_false] at h
  rcases h with rfl | rfl | rfl <;> exact ⟨rfl, rfl⟩

/-- Witness for C9 at the account-name input lookup site. -/
theorem C9_witness :
    (MMOTopPage.vote cfg0.server_rate cfg0.sirus_account_name
        (envFailENF Site.findCharInput)).2 = Res.exc PyExc.noSuchElement ("boom")
    ∧ (MMOTopAutomation.run cfg0 (envFailENF Site.findCharInput)).2
        = Res.exc PyExc.noSuchElement ("boom") :=
  C9_vote_soft_failure_covers_only_submit cfg0 cfg0.server_rate cfg0.sirus_account_name
    Site.findCharInput (by decide)

/-- C10: when the countdown probe raises an exception other than
NoSuchElementException, neither the slider challenge nor vote is invoked,
the exception propagates out of the run, and the top level catches and
logs it. -/
theorem C10_probe_non_enf_not_eligible
    (cfg : AutomationConfig) (env : Env) (e : PyExc) (m : String)
    (hOpen : env.fail Site.openPage = none)
    (hL1 : env.fail Site.clickSignInLink = none)
    (hL2 : env.fail Site.sendUserEmail = none)
    (hL3 : env.fail Site.sendUserPassword = none)
    (hL4 : env.fail Site.clickSignInSubmit = none)
    (hCd : env.fail Site.waitCountdown = some (e, m))
    (hNe : e ≠ PyExc.noSuchElement) :
    (MMOTopAutomation.run cfg env).2 = Res.exc e m
    ∧ (MMOTopAutomation.run cfg env).1.filter isChallengeOrVote = []
    ∧ (mainTop cfg env).2 = Res.ok
    ∧ (mainTop cfg env).1
        = (MMOTopAutomation.run cfg env).1 ++ [Event.logError (topMsg e ++ m)] := by
  have hrun : MMOTopAutomation.run cfg env =
      ([Event.openVotePageCall cfg.vote_url,
        Event.logInfo ("Opening vote page: " ++ cfg.vote_url),
        Event.loginCall cfg.user_name cfg.user_password,
        Event.logInfo ("Logging in..."),
        Event.logInfo ("Checking if already voted today..."),
        Event.logTimeCall], Res.exc e m) := by
    cases e
    · exact absurd rfl hNe
    · simp [MMOTopAutomation.run, MMOTopPage.open_vote_page, MMOTopPage.login,
        MMOTopPage.log_time_until_next_vote, mseq, mtry, emit, prim,
        hOpen, hL1, hL2, hL3, hL4, hCd]
    · simp [MMOTopAutomation.run, MMOTopPage.open_vote_page, MMOTopPage.login,
        MMOTopPage.log_time_until_next_vote, mseq, mtry, emit, prim,
        hOpen, hL1, hL2, hL3, hL4, hCd]
  refine ⟨by rw [hrun], ?_, ?_, ?_⟩
  · rw [hrun]
    simp [isChallengeOrVote]
  · simp [mainTop, hrun]
  · simp [mainTop, hrun]

/-- Environment where the countdown wait times out. -/
def envW10 : Env :=
  ⟨fun t => if t = Site.waitCountdown then some (PyExc.timeout, "tm") else none, "0"⟩

/-- Witness for C10 at a timing-out countdown wait. -/
theorem C10_witness :
    (MMOTopAutomation.run cfg0 envW10).2 = Res.exc PyExc.timeout ("tm")
    ∧ (MMOTopAutomation.run cfg0 envW10).1.filter isChallengeOrVote = []
    ∧ (mainTop cfg0 envW10).2 = Res.ok
    ∧ (mainTop cfg0 envW10).1
        = (MMOTopAutomation.run cfg0 envW10).1 ++ [Event.logError (topMsg PyExc.timeout ++ "tm")] :=
  C10_probe_non_enf_not_eligible cfg0 envW10 PyExc.timeout ("tm") (by decide) (by decide)
    (by decide) (by decide) (by decide) (by decide) (by decide)
